import Mathlib

/-!
Verification of kube-redirect-operator (Rust) against its specification.

Shallow embedding of `src/types.rs`, `src/controller.rs`, `src/metrics.rs`
and the serving path of `src/main.rs`.  Rust `HashSet<String>` is modelled
as a `List String` of its (distinct) elements, `BTreeMap<String,String>`
as a `List (String × String)`, and `Option` as Lean `Option`.  Stateful
API calls are modelled as explicit traces of effects plus injected call
results; panics are modelled as `Option.none`.
-/

namespace RedirectOperator

/-- Subset of `kube::api::ObjectMeta` used by the program.
`namespace` is a Lean keyword, hence `namespace'`. -/
structure ObjectMeta where
  name : Option String := none
  namespace' : Option String := none
  annotations : Option (List (String × String)) := none
  labels : Option (List (String × String)) := none
deriving DecidableEq

/-- `kube::ResourceExt::name_any`: the object's name, empty when absent
(the source never hits the `generateName` fallback for these objects). -/
def ObjectMeta.name_any (m : ObjectMeta) : String :=
  m.name.getD ""

/-- `types.rs`: `RedirectTo` — destination URI plus the
`includeRequestUri` flag. -/
structure RedirectTo where
  uri : String
  include_request_uri : Bool
deriving DecidableEq

/-- `types.rs`: `RedirectIngressTLS`. -/
structure RedirectIngressTLS where
  enabled : Bool
  secret_name : Option String
deriving DecidableEq

/-- `types.rs`: the `#[derive(Default)]` instance of `RedirectIngressTLS`:
Rust's derived `Default` makes `enabled` `false` and `secret_name` `None`. -/
def RedirectIngressTLS.derivedDefault : RedirectIngressTLS :=
  { enabled := false, secret_name := none }

/-- `types.rs`: `RedirectIngress` (the Intent's `routingConfig`). -/
structure RedirectIngress where
  enabled : Bool
  tls : RedirectIngressTLS
  ingress_class_name : Option String
  annotations : Option (List (String × String))
  labels : Option (List (String × String))
deriving DecidableEq

/-- `types.rs`: `RedirectSpec`; the `hosts : HashSet<String>` is modelled
as the list of the set's elements. -/
structure RedirectSpec where
  hosts : List String
  to' : RedirectTo
  ingress : RedirectIngress
deriving DecidableEq

/-- The `Redirect` custom resource (the spec's "Intent"). -/
structure Redirect where
  metadata : ObjectMeta
  spec : RedirectSpec
deriving DecidableEq

/-- `redirect.name_any()`. -/
def Redirect.name_any (r : Redirect) : String :=
  r.metadata.name_any

/-! ### serde deserialization (`types.rs` attributes)

Each `parse…Fields` structure holds the raw presence/absence of the JSON
fields (`none` = field omitted); the `parse…` function applies exactly the
serde attributes of `types.rs`: `#[serde(default = "default_true")]` on a
field substitutes `true` when the field is omitted, a bare
`#[serde(default)]` on the `tls` field substitutes the derived
`Default` value when the whole object is omitted. -/

/-- `types.rs`: `fn default_true() -> bool`. -/
def default_true : Bool := true

/-- Raw JSON fields of a `RedirectTo` value. -/
structure RedirectToFields where
  uri : String
  include_request_uri : Option Bool
deriving DecidableEq

/-- Deserialization of `RedirectTo`: `include_request_uri` has
`#[serde(default = "default_true")]`. -/
def parseRedirectTo (f : RedirectToFields) : RedirectTo :=
  { uri := f.uri
    include_request_uri := f.include_request_uri.getD default_true }

/-- Raw JSON fields of a `RedirectIngressTLS` value. -/
structure RedirectIngressTLSFields where
  enabled : Option Bool
  secret_name : Option String
deriving DecidableEq

/-- Deserialization of `RedirectIngressTLS`: `enabled` has
`#[serde(default = "default_true")]`. -/
def parseRedirectIngressTLS (f : RedirectIngressTLSFields) : RedirectIngressTLS :=
  { enabled := f.enabled.getD default_true
    secret_name := f.secret_name }

/-- Raw JSON fields of a `RedirectIngress` value (`none` = omitted). -/
structure RedirectIngressFields where
  enabled : Option Bool
  tls : Option RedirectIngressTLSFields
  ingress_class_name : Option String
  annotations : Option (List (String × String))
  labels : Option (List (String × String))
deriving DecidableEq

/-- Deserialization of `RedirectIngress`: `enabled` has
`#[serde(default = "default_true")]`, `tls` has a bare `#[serde(default)]`
(derived `Default`, i.e. `enabled = false`), `ingress_class_name` a bare
`#[serde(default)]`, and the `Option` fields default to `None`. -/
def parseRedirectIngress (f : RedirectIngressFields) : RedirectIngress :=
  { enabled := f.enabled.getD default_true
    tls := match f.tls with
      | none => RedirectIngressTLS.derivedDefault
      | some tf => parseRedirectIngressTLS tf
    ingress_class_name := f.ingress_class_name
    annotations := f.annotations
    labels := f.labels }

/-! ### k8s Ingress model (`k8s_openapi::api::networking::v1`, the fields
the program touches) -/

/-- `ServiceBackendPort`. -/
structure ServiceBackendPort where
  name : Option String
  number : Option Int
deriving DecidableEq

/-- `IngressServiceBackend`. -/
structure IngressServiceBackend where
  name : String
  port : Option ServiceBackendPort
deriving DecidableEq

/-- `IngressBackend` (`resource` is never set by the program; `Unit`
stands in for the unused `TypedLocalObjectReference`). -/
structure IngressBackend where
  resource : Option Unit
  service : Option IngressServiceBackend
deriving DecidableEq

/-- `HTTPIngressPath`. -/
structure HTTPIngressPath where
  backend : IngressBackend
  path : Option String
  path_type : String
deriving DecidableEq

/-- `HTTPIngressRuleValue`. -/
structure HTTPIngressRuleValue where
  paths : List HTTPIngressPath
deriving DecidableEq

/-- `IngressRule`. -/
structure IngressRule where
  host : Option String
  http : Option HTTPIngressRuleValue
deriving DecidableEq

/-- `IngressTLS`. -/
structure IngressTLS where
  hosts : Option (List String)
  secret_name : Option String
deriving DecidableEq

/-- `IngressSpec` (fields the program sets; the rest of
`IngressSpec::default()` carries no data here). -/
structure IngressSpec where
  ingress_class_name : Option String := none
  rules : Option (List IngressRule) := none
  tls : Option (List IngressTLS) := none
deriving DecidableEq

/-- `Ingress` (the spec's "Generated Routing Object"). -/
structure Ingress where
  metadata : ObjectMeta
  spec : Option IngressSpec
  status : Option Unit
deriving DecidableEq

/-- `ingress.name_any()`. -/
def Ingress.name_any (i : Ingress) : String :=
  i.metadata.name_any

/-- The transport-security block of a generated routing object. -/
def Ingress.tlsBlock (i : Ingress) : Option (List IngressTLS) :=
  i.spec.bind fun s => s.tls

/-! ### controller.rs -/

/-- `controller.rs`: the fields of `Context` the pure logic reads
(the kube client, API handle and metric registry are effect plumbing). -/
structure Context where
  self_namespace : String
  self_service_name : String
deriving DecidableEq

/-- `controller.rs`: `REDIRECT_KUBE_SLUG`. -/
def REDIRECT_KUBE_SLUG : String := "redirect.kube.ibotty.net"

/-- `controller.rs`: `fn ingress_backend`. -/
def ingress_backend (service_name : String) : IngressBackend :=
  { resource := none
    service := some
      { name := service_name
        port := some { name := none, number := some 8080 } } }

/-- `controller.rs`: `fn ingress_name_for_redirect` — the deterministic
key `"{namespace}.{name}"`.  The source unwraps both metadata fields
(panicking when absent); absence is modelled by the empty-string default
and the theorems assume the fields are present. -/
def ingress_name_for_redirect (redirect : Redirect) : String :=
  redirect.metadata.namespace'.getD "" ++ "." ++ redirect.metadata.name.getD ""

/-- `controller.rs`: `fn ingress_for_redirect` — computes the desired
Generated Routing Object from an Intent. -/
def ingress_for_redirect (ctx : Context) (redirect : Redirect) : Ingress :=
  let redirect_ingress := redirect.spec.ingress
  let tls : Option (List IngressTLS) :=
    if redirect_ingress.tls.enabled then
      some [{ hosts := some redirect.spec.hosts
              secret_name := some
                (redirect_ingress.tls.secret_name.getD
                  (redirect.name_any ++ "-tls-certs")) }]
    else
      none
  let http_rule : Option HTTPIngressRuleValue :=
    some { paths := [{ backend := ingress_backend ctx.self_service_name
                       path := some "/"
                       path_type := "Prefix" }] }
  let rules : Option (List IngressRule) :=
    some (redirect.spec.hosts.map fun host =>
      { host := some host, http := http_rule })
  { metadata :=
      { name := some (ingress_name_for_redirect redirect)
        namespace' := some ctx.self_namespace
        annotations := redirect_ingress.labels
        labels := redirect_ingress.annotations }
    spec := some
      { ingress_class_name := redirect_ingress.ingress_class_name
        rules := rules
        tls := tls }
    status := none }

/-- `types.rs`: `RedirectStatusIngress` (derived `Default`: empty
strings). -/
structure RedirectStatusIngress where
  name : String := ""
  namespace' : String := ""
deriving DecidableEq

/-- `types.rs`: `RedirectStatus` (derived `Default`). -/
structure RedirectStatus where
  ingress : RedirectStatusIngress := {}
deriving DecidableEq

/-- `kube::Error` as the program distinguishes it: the API's 404
not-found answer versus any other failure. -/
inductive KubeError where
  | notFound
  | other
deriving DecidableEq

/-- `types.rs`: `enum Error`. -/
inductive Error where
  | IngressCreationFailed (e : KubeError)
  | IngressDeletionFailed (e : KubeError)
  | StatusUpdateFailed (e : KubeError)
deriving DecidableEq

/-- `kube::runtime::controller::Action` as used here:
`Action::requeue(Duration::from_secs(n))`. -/
inductive Action where
  | requeue (secs : Nat)
deriving DecidableEq

/-- One observable side effect of a reconciliation attempt: a write
against the cluster API or a metric operation of
`ReconcileMetrics::count_and_measure` (`runs.inc()` on entry,
`duration.observe(..)` when the `ReconcileMeasurer` timer drops). -/
inductive Effect where
  | ingressPatch (name : String) (ingress : Ingress)
  | statusPatch (redirectName : String) (status : RedirectStatus)
  | ingressDelete (name : String)
  | runInc
  | observeDuration
deriving DecidableEq

/-- Whether an effect is a cluster write. -/
def Effect.isWrite : Effect → Bool
  | .ingressPatch _ _ => true
  | .statusPatch _ _ => true
  | .ingressDelete _ => true
  | .runInc => false
  | .observeDuration => false

/-- Whether an effect is the attempt counter increment. -/
def Effect.isRunInc : Effect → Bool
  | .runInc => true
  | _ => false

/-- Whether an effect is the duration-histogram observation. -/
def Effect.isObserve : Effect → Bool
  | .observeDuration => true
  | _ => false

/-- Injected results of the two API write calls `apply` makes
(server-side apply of the Ingress, merge patch of the status). -/
structure ApiBehavior where
  ingressPatchResult : Except KubeError Unit
  statusPatchResult : Except KubeError Unit

/-- `kube::Api::<Ingress>::delete` against a cluster holding the ingress
names `existing`: deleting an absent object is a 404 `kube::Error`. -/
def deleteIngress (existing : List String) (name : String) :
    Except KubeError (List String) :=
  if name ∈ existing then .ok (existing.erase name)
  else .error .notFound

/-- `controller.rs`: `async fn cleanup` — deletes the generated Ingress
by its deterministic key; any delete error (a 404 included) is mapped to
`Error::IngressDeletionFailed` and propagated by `?`.  Returns the trace
of effects together with the result. -/
def cleanup (existing : List String) (ctx : Context) (redirect : Redirect) :
    List Effect × Except Error Action :=
  let ingress_name := ingress_name_for_redirect redirect
  match deleteIngress existing ingress_name with
  | .error e => ([.ingressDelete ingress_name], .error (.IngressDeletionFailed e))
  | .ok _ => ([.ingressDelete ingress_name], .ok (.requeue 300))

/-- `controller.rs`: `async fn apply`.  `count_and_measure` increments
the attempt counter on entry (`.runInc`) and its returned timer observes
the duration when dropped at every exit of the function
(`.observeDuration`), error returns via `?` included.  If
`spec.ingress.enabled`, the desired Ingress is server-side-applied and
the status records its name and the operator's namespace; otherwise the
only write is the status patch with the default (empty) status. -/
def apply (env : ApiBehavior) (ctx : Context) (redirect : Redirect) :
    List Effect × Except Error Action :=
  let redirect_name := redirect.name_any
  if redirect.spec.ingress.enabled then
    let ingress := ingress_for_redirect ctx redirect
    let ingress_name := ingress.name_any
    match env.ingressPatchResult with
    | .error e =>
        ([.runInc, .ingressPatch ingress_name ingress, .observeDuration],
         .error (.IngressCreationFailed e))
    | .ok _ =>
        let status : RedirectStatus :=
          { ingress := { name := ingress_name, namespace' := ctx.self_namespace } }
        match env.statusPatchResult with
        | .error e =>
            ([.runInc, .ingressPatch ingress_name ingress,
              .statusPatch redirect_name status, .observeDuration],
             .error (.StatusUpdateFailed e))
        | .ok _ =>
            ([.runInc, .ingressPatch ingress_name ingress,
              .statusPatch redirect_name status, .observeDuration],
             .ok (.requeue 300))
  else
    match env.statusPatchResult with
    | .error e =>
        ([.runInc, .statusPatch redirect_name {}, .observeDuration],
         .error (.StatusUpdateFailed e))
    | .ok _ =>
        ([.runInc, .statusPatch redirect_name {}, .observeDuration],
         .ok (.requeue 300))

/-! ### main.rs — the serving path -/

/-- An HTTP response as far as the serving path shapes one: status code
and the redirect target (`Location`). -/
structure Response where
  status : Nat
  location : Option String
deriving DecidableEq

/-- `axum::response::Redirect::permanent(uri)`: a 308 Permanent Redirect
to `uri`. -/
def permanentRedirect (uri : String) : Response :=
  { status := 308, location := some uri }

/-- `main.rs`: `struct NotFoundError`. -/
structure NotFoundError where
deriving DecidableEq

/-- `main.rs`: `impl IntoResponse for NotFoundError` — the body is
`todo!()`, which panics instead of building a response; the panic is
modelled as `none` (no well-formed HTTP response is produced). -/
def NotFoundError.into_response (_ : NotFoundError) : Option Response :=
  none

/-- Rust `str::trim_end_matches('.')`: strip every trailing `'.'`. -/
def trimEndDots (s : String) : String :=
  String.mk ((s.data.reverse.dropWhile (· = '.')).reverse)

/-- One observable side effect of serving a request: the success or the
failure counter for the requested host
(`metrics.http.set_request` / `metrics.http.set_failure`). -/
inductive ServeEffect where
  | requestInc (host : String)
  | failureInc (host : String)
deriving DecidableEq

/-- `main.rs`: `async fn redirect` — the handler.  The reflector store is
modelled as the list of Intents in snapshot order (`Store::find` returns
the first match); `path` is the captured wildcard segment (`None` on the
bare `/` route).  Trailing dots are trimmed from the host, the first
Intent whose `hosts` contains the trimmed host wins, and the destination
is `to.uri` plus always-inserted `/` plus the captured path when
`include_request_uri` is set, else `to.uri` alone. -/
def redirect (store : List Redirect) (host0 : String) (path : Option String) :
    List ServeEffect × Except NotFoundError Response :=
  let host := trimEndDots host0
  match store.find? (fun r => r.spec.hosts.contains host) with
  | some r =>
      let to' := r.spec.to'
      let uri :=
        if to'.include_request_uri then
          to'.uri ++ "/" ++ path.getD ""
        else
          to'.uri
      ([.requestInc host], .ok (permanentRedirect uri))
  | none =>
      ([.failureInc host], .error {})

/-- The axum router of `main.rs`: `route("/", get(redirect))` captures no
path; `route("/\x7b*path\x7d", get(redirect))` captures everything after
the leading slash. -/
def routeCapture (requestPath : String) : Option String :=
  if requestPath = "/" then none
  else some (requestPath.drop 1)

/-- End-to-end serving of one request: route the path, run the handler,
and render its result — the `Ok` branch is the handler's response, the
`Err` branch is rendered by `NotFoundError::into_response` (which
panics, i.e. yields no response). -/
def handleRequest (store : List Redirect) (host : String) (requestPath : String) :
    List ServeEffect × Option Response :=
  match redirect store host (routeCapture requestPath) with
  | (fx, .ok resp) => (fx, some resp)
  | (fx, .error e) => (fx, e.into_response)

/-- The rules block of a generated routing object. -/
def Ingress.rulesBlock (i : Ingress) : Option (List IngressRule) :=
  i.spec.bind fun s => s.rules

/-! ### Concrete fixtures used by the closed theorems -/

/-- A concrete operator context. -/
def exampleContext : Context :=
  { self_namespace := "redirect-operator", self_service_name := "redirect-operator" }

/-- The Intent of the spec's serving-correctness example:
`hosts = ["a.example"]`, `target.uri = "https://dest/"`,
`includeRequestUri = true`. -/
def exampleIntent : Redirect :=
  { metadata := { name := some "r", namespace' := some "ns" }
    spec :=
      { hosts := ["a.example"]
        to' := { uri := "https://dest/", include_request_uri := true }
        ingress :=
          { enabled := true
            tls := { enabled := true, secret_name := none }
            ingress_class_name := none
            annotations := none
            labels := none } } }

/-! ### Helper lemmas -/

/-- Dropping a prefix by `p` twice is the same as dropping it once. -/
theorem dropWhile_dropWhile {α : Type} (p : α → Bool) (l : List α) :
    (l.dropWhile p).dropWhile p = l.dropWhile p := by
  induction l with
  | nil => rfl
  | cons a t ih =>
    rw [List.dropWhile_cons]
    split
    · exact ih
    · rw [List.dropWhile_cons]
      simp [*]

/-- Stripping trailing dots is idempotent. -/
theorem trimEndDots_idem (s : String) :
    trimEndDots (trimEndDots s) = trimEndDots s := by
  simp [trimEndDots, dropWhile_dropWhile]

/-! ### Theorems for the claims -/

/-- Claim C2 (code bug): for a request whose host matches no Intent, the
handler takes the error branch (warning log plus failure-counter
increment), but rendering `NotFoundError` runs `todo!()`, which panics:
no well-formed not-found response is ever produced, contradicting the
spec's "never a server fault". -/
theorem C2_not_found_is_a_panic :
    redirect [] "b.example" none = ([.failureInc "b.example"], .error {}) ∧
    (handleRequest [] "b.example" "/").2 = none ∧
    NotFoundError.into_response {} = none :=
  ⟨rfl, rfl, rfl⟩

/-- Claim C3: for every Intent found by host lookup the destination is
`to.uri` alone when `include_request_uri` is false and
`to.uri ++ "/" ++ path` (separator always inserted) when it is true, the
response being a 308 permanent redirect; concretely, the example Intent
with `target.uri = "https://dest/"` serves the request path `"/p"` with
redirect target `"https://dest//p"`. -/
theorem C3_redirect_destination :
    (∀ (store : List Redirect) (host : String) (path : Option String) (r : Redirect),
      store.find? (fun r => r.spec.hosts.contains (trimEndDots host)) = some r →
      (redirect store host path).2 = .ok (permanentRedirect
        (if r.spec.to'.include_request_uri then
            r.spec.to'.uri ++ "/" ++ path.getD ""
          else r.spec.to'.uri))) ∧
    (handleRequest [exampleIntent] "a.example" "/p").2 =
      some { status := 308, location := some "https://dest//p" } := by
  constructor
  · intro store host path r h
    simp only [redirect]
    rw [h]
  · rfl

/-- Witness for C3 at the concrete store `[exampleIntent]`, host
`"a.example"` and captured path `"p"`. -/
theorem C3_redirect_destination_witness :
    (redirect [exampleIntent] "a.example" (some "p")).2 = .ok (permanentRedirect
      (if exampleIntent.spec.to'.include_request_uri then
          exampleIntent.spec.to'.uri ++ "/" ++ (some "p").getD ""
        else exampleIntent.spec.to'.uri)) :=
  C3_redirect_destination.1 [exampleIntent] "a.example" (some "p") exampleIntent rfl

/-- Claim C4: the handler looks hosts up after stripping trailing dots
(looking up a host is the same as looking up its trimmed form), a host
with no trailing dot is looked up unchanged, and the request host
`"a.example."` matches the Intent declaring `"a.example"`. -/
theorem C4_trailing_dots_stripped :
    (∀ (store : List Redirect) (host : String) (path : Option String),
      redirect store host path = redirect store (trimEndDots host) path) ∧
    (∀ h : String, h.data.getLast? ≠ some '.' → trimEndDots h = h) ∧
    redirect [exampleIntent] "a.example." none =
      ([.requestInc "a.example"], .ok (permanentRedirect "https://dest//")) := by
  refine ⟨?_, ?_, rfl⟩
  · intro store host path
    simp [redirect, trimEndDots_idem]
  · intro h hne
    rcases hrev : h.data.reverse with _ | ⟨a, t⟩
    · have hd : h.data = [] := by
        simpa using congrArg List.reverse hrev
      have hh : h = "" := by
        obtain ⟨d⟩ := h
        have hd' : d = [] := hd
        rw [hd']
      rw [hh]
      rfl
    · have ha : h.data.getLast? = some a := by
        rw [← List.head?_reverse, hrev]
        rfl
      have hna : ¬ (a = '.') := fun hc => hne (by rw [ha, hc])
      have hstep : h.data.reverse.dropWhile (· = '.') = h.data.reverse := by
        rw [hrev, List.dropWhile_cons_of_neg (by simpa using hna)]
      simp only [trimEndDots]
      rw [hstep, List.reverse_reverse]

/-- Witness for C4's trimmed-form clause at the concrete host
`"a.example"` (no trailing dot). -/
theorem C4_trailing_dots_stripped_witness :
    "a.example".data.getLast? ≠ some '.' ∧ trimEndDots "a.example" = "a.example" :=
  ⟨by decide, C4_trailing_dots_stripped.2.1 "a.example" (by decide)⟩

/-- An API environment in which both write calls succeed. -/
def okApi : ApiBehavior :=
  { ingressPatchResult := .ok (), statusPatchResult := .ok () }

/-- The example Intent with `routingConfig.enabled = false`. -/
def disabledIntent : Redirect :=
  { exampleIntent with
    spec := { exampleIntent.spec with
              ingress := { exampleIntent.spec.ingress with enabled := false } } }

/-- Claim C5: the generated routing object's metadata carries the
Intent's `annotations` as the object's `labels` and the Intent's
`labels` as the object's `annotations`, verbatim. -/
theorem C5_annotations_labels_swapped (ctx : Context) (r : Redirect) :
    (ingress_for_redirect ctx r).metadata.labels = r.spec.ingress.annotations ∧
    (ingress_for_redirect ctx r).metadata.annotations = r.spec.ingress.labels :=
  ⟨rfl, rfl⟩

/-- Claim C6: for an Intent with `routingConfig.enabled = true` (and
metadata present), the generated routing object is named
`"{namespace}.{name}"`, `apply` server-side-applies exactly that object
under that name, the rules map one-to-one over the Intent's hosts, and
every rule's backend is the operator's own service on port 8080. -/
theorem C6_generated_object_shape (env : ApiBehavior) (ctx : Context) (r : Redirect)
    (ns n : String) (hns : r.metadata.namespace' = some ns)
    (hn : r.metadata.name = some n) (hen : r.spec.ingress.enabled = true) :
    (ingress_for_redirect ctx r).metadata.name = some (ns ++ "." ++ n) ∧
    Effect.ingressPatch (ns ++ "." ++ n) (ingress_for_redirect ctx r) ∈ (apply env ctx r).1 ∧
    (ingress_for_redirect ctx r).rulesBlock =
      some (r.spec.hosts.map fun host =>
        { host := some host
          http := some { paths := [{ backend := ingress_backend ctx.self_service_name
                                     path := some "/"
                                     path_type := "Prefix" }] } }) ∧
    ingress_backend ctx.self_service_name =
      { resource := none
        service := some { name := ctx.self_service_name
                          port := some { name := none, number := some 8080 } } } := by
  have hname : ingress_name_for_redirect r = ns ++ "." ++ n := by
    simp [ingress_name_for_redirect, hns, hn]
  have h2 : (ingress_for_redirect ctx r).name_any = ns ++ "." ++ n := by
    simp [Ingress.name_any, ObjectMeta.name_any, ingress_for_redirect, hname]
  refine ⟨?_, ?_, ?_, rfl⟩
  · simp [ingress_for_redirect, hname]
  · cases h1 : env.ingressPatchResult <;> cases hst : env.statusPatchResult <;>
      simp [apply, hen, h1, hst, h2]
  · simp [Ingress.rulesBlock, ingress_for_redirect]

/-- Witness for C6 at the example Intent and a succeeding API. -/
theorem C6_generated_object_shape_witness :
    (ingress_for_redirect exampleContext exampleIntent).metadata.name =
      some ("ns" ++ "." ++ "r") ∧
    Effect.ingressPatch ("ns" ++ "." ++ "r")
      (ingress_for_redirect exampleContext exampleIntent) ∈
      (apply okApi exampleContext exampleIntent).1 ∧
    (ingress_for_redirect exampleContext exampleIntent).rulesBlock =
      some (exampleIntent.spec.hosts.map fun host =>
        { host := some host
          http := some
            { paths := [{ backend := ingress_backend exampleContext.self_service_name
                          path := some "/"
                          path_type := "Prefix" }] } }) ∧
    ingress_backend exampleContext.self_service_name =
      { resource := none
        service := some { name := exampleContext.self_service_name
                          port := some { name := none, number := some 8080 } } } :=
  C6_generated_object_shape okApi exampleContext exampleIntent "ns" "r" rfl rfl rfl

/-- Claim C7: the generated routing object's TLS block is present iff
`routingConfig.tls.enabled` is true; when present, an unspecified secret
name defaults to `"{name}-tls-certs"` and a specified one is used
verbatim. -/
theorem C7_tls_block (ctx : Context) (r : Redirect) :
    ((ingress_for_redirect ctx r).tlsBlock.isSome ↔
      r.spec.ingress.tls.enabled = true) ∧
    (r.spec.ingress.tls.enabled = true → r.spec.ingress.tls.secret_name = none →
      (ingress_for_redirect ctx r).tlsBlock =
        some [{ hosts := some r.spec.hosts
                secret_name := some (r.name_any ++ "-tls-certs") }]) ∧
    (∀ s : String, r.spec.ingress.tls.enabled = true →
      r.spec.ingress.tls.secret_name = some s →
      (ingress_for_redirect ctx r).tlsBlock =
        some [{ hosts := some r.spec.hosts, secret_name := some s }]) := by
  refine ⟨?_, ?_, ?_⟩
  · cases he : r.spec.ingress.tls.enabled <;>
      simp [Ingress.tlsBlock, ingress_for_redirect, he]
  · intro he hsn
    simp [Ingress.tlsBlock, ingress_for_redirect, he, hsn]
  · intro s he hsn
    simp [Ingress.tlsBlock, ingress_for_redirect, he, hsn]

/-- Witness for C7 at the example Intent (TLS enabled, secret name
unspecified, hence the `"r-tls-certs"` default). -/
theorem C7_tls_block_witness :
    (ingress_for_redirect exampleContext exampleIntent).tlsBlock =
      some [{ hosts := some exampleIntent.spec.hosts
              secret_name := some (exampleIntent.name_any ++ "-tls-certs") }] :=
  (C7_tls_block exampleContext exampleIntent).2.1 rfl rfl

/-- Claim C8: for an Intent with `routingConfig.enabled = false`, `apply`
attempts no routing-object upsert — its only cluster write is the status
patch carrying the default status, whose generated-object reference is
the empty name and namespace. -/
theorem C8_disabled_only_status_patch (env : ApiBehavior) (ctx : Context)
    (r : Redirect) (hen : r.spec.ingress.enabled = false) :
    (apply env ctx r).1 = [.runInc, .statusPatch r.name_any {}, .observeDuration] ∧
    (apply env ctx r).1.filter Effect.isWrite =
      [.statusPatch r.name_any { ingress := { name := "", namespace' := "" } }] := by
  cases hst : env.statusPatchResult <;>
    simp [apply, hen, hst, Effect.isWrite, List.filter]

/-- Witness for C8 at the example Intent with routing disabled. -/
theorem C8_disabled_only_status_patch_witness :
    (apply okApi exampleContext disabledIntent).1 =
      [.runInc, .statusPatch disabledIntent.name_any {}, .observeDuration] ∧
    (apply okApi exampleContext disabledIntent).1.filter Effect.isWrite =
      [.statusPatch disabledIntent.name_any
        { ingress := { name := "", namespace' := "" } }] :=
  C8_disabled_only_status_patch okApi exampleContext disabledIntent rfl

/-- Counterexample to claim C1: with the routing object absent (empty
cluster), `cleanup` of the example Intent returns
`Error::IngressDeletionFailed` wrapping the API's 404 — not the
300-second-requeue success the claim asserts. -/
theorem C1_cleanup_counterexample :
    ingress_name_for_redirect exampleIntent ∉ ([] : List String) ∧
    (cleanup [] exampleContext exampleIntent).2 =
      .error (.IngressDeletionFailed .notFound) :=
  ⟨by simp, rfl⟩

/-- Amended claim C1: `cleanup` deletes the routing object by its
deterministic key; it succeeds with a 300-second requeue when the object
exists, but when the object is already absent the 404 delete error is
mapped to `IngressDeletionFailed` and propagated — absence is not
treated as success. -/
theorem C1_cleanup_delete_by_key (existing : List String) (ctx : Context)
    (r : Redirect) :
    (cleanup existing ctx r).1 = [.ingressDelete (ingress_name_for_redirect r)] ∧
    (ingress_name_for_redirect r ∈ existing →
      (cleanup existing ctx r).2 = .ok (.requeue 300)) ∧
    (ingress_name_for_redirect r ∉ existing →
      (cleanup existing ctx r).2 = .error (.IngressDeletionFailed .notFound)) := by
  by_cases hmem : ingress_name_for_redirect r ∈ existing <;>
    simp [cleanup, deleteIngress, hmem]

/-- Witness for C1's amended claim at the example Intent, once with its
routing object `"ns.r"` present and once with it absent. -/
theorem C1_cleanup_delete_by_key_witness :
    (cleanup ["ns.r"] exampleContext exampleIntent).2 = .ok (.requeue 300) ∧
    (cleanup [] exampleContext exampleIntent).2 =
      .error (.IngressDeletionFailed .notFound) :=
  ⟨(C1_cleanup_delete_by_key ["ns.r"] exampleContext exampleIntent).2.1 (by decide),
   (C1_cleanup_delete_by_key [] exampleContext exampleIntent).2.2 (by decide)⟩

/-- Counterexample to claim C9: a successful Cleaning-up attempt on the
example Intent records neither an attempt-counter increment nor a
duration observation — only `apply` is instrumented. -/
theorem C9_cleanup_not_instrumented :
    (cleanup ["ns.r"] exampleContext exampleIntent).2 = .ok (.requeue 300) ∧
    (cleanup ["ns.r"] exampleContext exampleIntent).1.countP Effect.isRunInc = 0 ∧
    (cleanup ["ns.r"] exampleContext exampleIntent).1.countP Effect.isObserve = 0 :=
  ⟨rfl, rfl, rfl⟩

/-- Amended claim C9: every Applying-branch attempt (`apply`) increments
the attempt counter exactly once on entry and records exactly one
duration observation on exit, whatever the outcome of the two API calls;
the Cleaning-up branch (`cleanup`) records neither. -/
theorem C9_metrics_only_in_apply (env : ApiBehavior) (ctx : Context)
    (r : Redirect) (existing : List String) :
    (apply env ctx r).1.countP Effect.isRunInc = 1 ∧
    (apply env ctx r).1.countP Effect.isObserve = 1 ∧
    (apply env ctx r).1.head? = some .runInc ∧
    (apply env ctx r).1.getLast? = some .observeDuration ∧
    (cleanup existing ctx r).1.countP Effect.isRunInc = 0 ∧
    (cleanup existing ctx r).1.countP Effect.isObserve = 0 := by
  refine ⟨?_, ?_, ?_, ?_, ?_, ?_⟩
  · cases hen : r.spec.ingress.enabled <;> cases h1 : env.ingressPatchResult <;>
      cases hst : env.statusPatchResult <;>
      simp [apply, hen, h1, hst, Effect.isRunInc, List.countP_cons]
  · cases hen : r.spec.ingress.enabled <;> cases h1 : env.ingressPatchResult <;>
      cases hst : env.statusPatchResult <;>
      simp [apply, hen, h1, hst, Effect.isObserve, List.countP_cons]
  · cases hen : r.spec.ingress.enabled <;> cases h1 : env.ingressPatchResult <;>
      cases hst : env.statusPatchResult <;>
      simp [apply, hen, h1, hst]
  · cases hen : r.spec.ingress.enabled <;> cases h1 : env.ingressPatchResult <;>
      cases hst : env.statusPatchResult <;>
      simp [apply, hen, h1, hst]
  · by_cases hmem : ingress_name_for_redirect r ∈ existing <;>
      simp [cleanup, deleteIngress, hmem, Effect.isRunInc, List.countP_cons]
  · by_cases hmem : ingress_name_for_redirect r ∈ existing <;>
      simp [cleanup, deleteIngress, hmem, Effect.isObserve, List.countP_cons]

/-- Raw `routingConfig` JSON with every optional field omitted. -/
def bareIngressFields : RedirectIngressFields :=
  { enabled := none, tls := none, ingress_class_name := none
    annotations := none, labels := none }

/-- An Intent deserialized from a spec that mentions neither the enabled
flag nor any TLS settings. -/
def bareIntent : Redirect :=
  { metadata := { name := some "r", namespace' := some "ns" }
    spec :=
      { hosts := ["a.example"]
        to' := parseRedirectTo { uri := "https://dest/", include_request_uri := none }
        ingress := parseRedirectIngress bareIngressFields } }

/-- Counterexample to claim C10: when the whole `tls` object is omitted,
serde's bare `#[serde(default)]` substitutes the derived `Default`
(`enabled = false`), so an Intent whose spec mentions no TLS settings
gets a routing object with NO transport-security block — the
`default_true` attribute never runs for the omitted object. -/
theorem C10_omitted_tls_counterexample :
    (parseRedirectIngress bareIngressFields).enabled = true ∧
    (parseRedirectIngress bareIngressFields).tls.enabled = false ∧
    (ingress_for_redirect exampleContext bareIntent).tlsBlock = none :=
  ⟨rfl, rfl, rfl⟩

/-- Amended claim C10: an omitted `routingConfig.enabled` and an omitted
`target.includeRequestUri` default to true, and an omitted `tls.enabled`
defaults to true only when the `tls` object itself is present; an
entirely omitted `tls` object takes the derived default
`enabled = false`, so an Intent mentioning no TLS settings yields a
routing object without a transport-security block. -/
theorem C10_serde_defaults (f : RedirectIngressFields)
    (tf : RedirectIngressTLSFields) (g : RedirectToFields) (ctx : Context)
    (m : ObjectMeta) (hosts : List String) (t : RedirectTo) :
    (parseRedirectIngress { f with enabled := none }).enabled = true ∧
    (parseRedirectTo { g with include_request_uri := none }).include_request_uri
      = true ∧
    (parseRedirectIngress
      { f with tls := some { tf with enabled := none } }).tls.enabled = true ∧
    (parseRedirectIngress { f with tls := none }).tls =
      RedirectIngressTLS.derivedDefault ∧
    (ingress_for_redirect ctx
      { metadata := m
        spec := { hosts := hosts, to' := t
                  ingress := parseRedirectIngress { f with tls := none } } }).tlsBlock
      = none :=
  ⟨rfl, rfl, rfl, rfl, rfl⟩

end RedirectOperator
